import Mathlib

/-!
Shallow embedding of the Message Routing and Permission Gate of the
A2A-Instabids repository (file `src/agents/messaging/agent.py`,
class `MessagingAgent`), together with theorems settling the spec claims
about it.

The embedding follows the Python source line by line:

* `should_allow_message` embeds `MessagingAgent._should_allow_message`:
  role detection by the substring test `"contractor-agent" in agent_id`,
  the placeholder mapping `contractor_user_id = contractor_agent_id`,
  the bid query `bids.select("status").eq("project_id", pid).eq("contractor_id", cid)`,
  the accepted / pending / initial-contact / default-deny rule ladder with
  `has_prior_contact = False` hard-coded, and the surrounding
  `try/except` that converts any database failure into a deny.
* `handle_message` embeds the delivery part of `MessagingAgent.handle_message`:
  when the verdict allows, the forwarded content is
  `modified_content = message.content` (redaction and pseudonymization are
  TODO placeholders in the source, so content passes through unchanged).
* `handle_broadcast` embeds `MessagingAgent._handle_broadcast`:
  the recipient set is `list(set(bid["contractor_id"] for ...))` over ALL
  bids of the project (no status filter), the agent id is rebuilt as
  `f"contractor-agent-{str(uid)[:8]}"`, and each send runs in its own
  `try/except` so one failure does not abort the loop.

The external collaborators are modelled as explicit data: the Supabase
client is `Option Client` (`none` ≙ `self.db is None`, `Client.failing` ≙
every query raises, `Client.ok table` ≙ a working client over the `bids`
table), agent-info lookup and transport success are Boolean oracles.
-/

/-- Character-list prefix test, used to embed Python's substring operator. -/
def charsPrefixOf : List Char → List Char → Bool
  | [], _ => true
  | _ :: _, [] => false
  | a :: as, b :: bs => a == b && charsPrefixOf as bs

/-- Character-list infix test, used to embed Python's substring operator. -/
def charsInfixOf (needle : List Char) : List Char → Bool
  | [] => charsPrefixOf needle []
  | b :: bs => charsPrefixOf needle (b :: bs) || charsInfixOf needle bs

/-- Embedding of Python's `needle in hay` on strings (substring containment),
as used by the role-detection placeholder in `_should_allow_message`. -/
def strContains (needle hay : String) : Bool :=
  charsInfixOf needle.data hay.data

/-- One row of the `bids` table, with the columns the Messaging Agent reads:
`project_id`, `contractor_id` (the contractor's user UUID column) and
`status`. -/
structure Bid where
  project_id : String
  contractor_id : String
  status : String
deriving DecidableEq, Repr

/-- The Supabase client as seen from the agent: either a working client over
the `bids` table, or one whose queries raise (network/store failure). The
agent field `self.db` is `Option Client`, with `none` for `self.db is None`. -/
inductive Client where
  | ok (table : List Bid) : Client
  | failing : Client
deriving DecidableEq

/-- The query `db.table("bids").select(...).eq("project_id", pid)
.eq("contractor_id", cid).execute()` on a working client: the rows of the
table matching both filters. -/
def bidsQuery (table : List Bid) (pid cid : String) : List Bid :=
  table.filter (fun b => b.project_id == pid && b.contractor_id == cid)

/-- Running the bid query against the client; on a failing client the call
raises, which the embedding surfaces as `Except.error`. -/
def runBidQuery : Client → String → String → Except String (List Bid)
  | Client.failing, _, _ => Except.error "query failed"
  | Client.ok table, pid, cid => Except.ok (bidsQuery table pid cid)

/-- The rule ladder of `_should_allow_message` after the bid query succeeded
(source lines 224-257): accepted → allow; pending → allow; then the
initial-contact rule with `has_prior_contact = False` hard-coded; default
deny. -/
def evalBids (bids : List Bid) (sender_is_contractor : Bool) : Bool × String :=
  let has_accepted_bid := bids.any (fun b => b.status == "accepted")
  let has_pending_bid := bids.any (fun b => b.status == "pending")
  if has_accepted_bid then (true, "Allowed: Bid accepted")
  else if has_pending_bid then (true, "Allowed: Bid pending (redaction may apply)")
  else
    let has_prior_contact := false
    if sender_is_contractor && has_prior_contact then (true, "Allowed: Follow-up contact")
    else if sender_is_contractor && !has_pending_bid && !has_prior_contact then
      if bids.isEmpty then (true, "Allowed: Initial pre-bid contact")
      else (false, "Blocked: No accepted/pending bid or prior contact")
    else (false, "Blocked: No accepted/pending bid or prior contact")

/-- The part of `_should_allow_message` after the roles were assigned
(source lines 212-257): the falsy check on `homeowner_agent_id` /
`contractor_user_id` (both are strings here, so falsy means empty), then the
bid query inside the `try`, whose exception handler returns the
"Error checking permissions" deny. -/
def roleResolved (client : Client) (pid homeowner_agent_id contractor_user_id : String)
    (sender_is_contractor : Bool) : Bool × String :=
  if homeowner_agent_id == "" || contractor_user_id == "" then
    (false, "Blocked: Could not identify homeowner/contractor roles or map AgentID to UserID")
  else
    match runBidQuery client pid contractor_user_id with
    | Except.error _ => (false, "Blocked: Error checking permissions")
    | Except.ok bids => evalBids bids sender_is_contractor

/-- Embedding of `MessagingAgent._should_allow_message(project_id, sender_id,
recipient_id)`. Checks, in source order: missing `project_id`; missing
database client; the substring-based role guess with the placeholder
`contractor_user_id = contractor_agent_id` mapping; same-role denies; then
the bid-status rule ladder. Returns the `(allowed, reason)` pair of the
source. -/
def should_allow_message (db : Option Client) (project_id : Option String)
    (sender_id recipient_id : String) : Bool × String :=
  match project_id with
  | none => (false, "Blocked: Missing project context")
  | some pid =>
    match db with
    | none => (false, "Blocked: Database connection unavailable")
    | some client =>
      let sender_is_contractor := strContains "contractor-agent" sender_id
      let recipient_is_contractor := strContains "contractor-agent" recipient_id
      if sender_is_contractor && !recipient_is_contractor then
        roleResolved client pid recipient_id sender_id sender_is_contractor
      else if !sender_is_contractor && recipient_is_contractor then
        roleResolved client pid sender_id recipient_id sender_is_contractor
      else if sender_is_contractor && recipient_is_contractor then
        (false, "Blocked: Contractor-to-contractor messaging not supported")
      else
        (false, "Blocked: Homeowner-to-homeowner messaging not supported")

/-- Observable outcome of `MessagingAgent.handle_message` for one message. -/
inductive MsgOutcome where
  | notProcessed : MsgOutcome
  | blocked (reason : String) : MsgOutcome
  | forwarded (content : String) : MsgOutcome
  | recipientNotFound : MsgOutcome
deriving DecidableEq, Repr

/-- Embedding of `MessagingAgent.handle_message`: early return when the
client is absent; otherwise the permission check, and on allow the content
is forwarded as `modified_content = message.content` — the redaction and
pseudonymity steps are TODO placeholders in the source, so the payload is
passed through verbatim. `recipientKnown` models whether
`_get_recipient_agent_info` finds an endpoint. -/
def handle_message (db : Option Client) (project_id : Option String)
    (sender_id recipient_id content : String) (recipientKnown : Bool) : MsgOutcome :=
  match db with
  | none => MsgOutcome.notProcessed
  | some client =>
    let verdict := should_allow_message (some client) project_id sender_id recipient_id
    if verdict.1 then
      let modified_content := content
      if recipientKnown then MsgOutcome.forwarded modified_content
      else MsgOutcome.recipientNotFound
    else MsgOutcome.blocked verdict.2

/-- Per-recipient outcome of one iteration of the `_handle_broadcast` loop. -/
inductive BroadcastOutcome where
  | sent (agent_id : String) : BroadcastOutcome
  | sendFailed (agent_id : String) : BroadcastOutcome
  | skipped (agent_id : String) : BroadcastOutcome
deriving DecidableEq, Repr

/-- The broadcast recipient set of `_handle_broadcast` (source lines
274-279): `list(set(bid["contractor_id"] for bid in bids_res.data))` over
the query `select("contractor_id").eq("project_id", project_id)` — every
contractor with any bid row on the project, regardless of status,
deduplicated. -/
def broadcastRecipients (table : List Bid) (pid : String) : List String :=
  ((table.filter (fun b => b.project_id == pid)).map (fun b => b.contractor_id)).dedup

/-- The placeholder agent-id reconstruction of source line 287:
`f"contractor-agent-{str(recipient_user_id)[:8]}"`. -/
def recipientAgentId (uid : String) : String :=
  "contractor-agent-" ++ uid.take 8

/-- One iteration of the `_handle_broadcast` fan-out loop for recipient
`uid`: look up the agent info (skip with a warning when unknown), then send
inside the per-recipient `try/except` (a raised send is logged as failed and
the loop continues). -/
def deliverOne (agentInfoKnown sendOk : String → Bool) (uid : String) : BroadcastOutcome :=
  let aid := recipientAgentId uid
  if agentInfoKnown aid then
    if sendOk aid then BroadcastOutcome.sent aid else BroadcastOutcome.sendFailed aid
  else BroadcastOutcome.skipped aid

/-- Embedding of `MessagingAgent._handle_broadcast`: nothing happens when
the client is absent or the recipient query raises (outer `except`);
otherwise the deduplicated recipient set is computed once and each recipient
is processed independently by `deliverOne`. The returned list records the
per-recipient outcomes in loop order. -/
def handle_broadcast (db : Option Client) (pid : String)
    (agentInfoKnown sendOk : String → Bool) : List BroadcastOutcome :=
  match db with
  | none => []
  | some Client.failing => []
  | some (Client.ok table) =>
    (broadcastRecipients table pid).map (deliverOne agentInfoKnown sendOk)

/-- The needle "contractor-agent" is not contained in the empty string, so an
identifier that passes the role-substring test is nonempty. -/
theorem contains_ne_empty {s : String} (h : strContains "contractor-agent" s = true) :
    s ≠ "" := by
  intro e
  subst e
  exact absurd h (by decide)

/-- C1: for every (project, contractor) pair whose bid-query result contains
at least one bid with status "accepted", and any message between that
contractor and a homeowner (in either direction), `_should_allow_message`
returns allow with reason "Allowed: Bid accepted", regardless of any other
pending or rejected bids in the table; and the content forwarded by
`handle_message` is the payload unchanged (no transform applied). -/
theorem accepted_bid_allows_untransformed
    (table : List Bid) (pid c h content sender recipient : String)
    (hc : strContains "contractor-agent" c = true)
    (hh : strContains "contractor-agent" h = false)
    (hne : h ≠ "")
    (hdir : (sender = c ∧ recipient = h) ∨ (sender = h ∧ recipient = c))
    (hacc : (bidsQuery table pid c).any (fun b => b.status == "accepted") = true) :
    should_allow_message (some (Client.ok table)) (some pid) sender recipient
      = (true, "Allowed: Bid accepted")
  ∧ handle_message (some (Client.ok table)) (some pid) sender recipient content true
      = MsgOutcome.forwarded content := by
  have hcne : c ≠ "" := contains_ne_empty hc
  have hmain : should_allow_message (some (Client.ok table)) (some pid) sender recipient
      = (true, "Allowed: Bid accepted") := by
    rcases hdir with ⟨hs, hr⟩ | ⟨hs, hr⟩ <;> subst hs <;> subst hr <;>
      simp [should_allow_message, roleResolved, runBidQuery, evalBids, hc, hh, hne, hcne, hacc]
  refine ⟨hmain, ?_⟩
  simp [handle_message, hmain]

/-- Witness for C1: a concrete table holding one accepted and one rejected
bid of contractor "contractor-agent-001" on project "p1"; the contractor's
message to "homeowner-agent-001" is allowed with reason "Allowed: Bid
accepted" and forwarded verbatim. -/
theorem accepted_bid_allows_untransformed_witness :
    strContains "contractor-agent" "contractor-agent-001" = true
  ∧ strContains "contractor-agent" "homeowner-agent-001" = false
  ∧ "homeowner-agent-001" ≠ ""
  ∧ (bidsQuery [⟨"p1", "contractor-agent-001", "accepted"⟩,
                ⟨"p1", "contractor-agent-001", "rejected"⟩] "p1"
        "contractor-agent-001").any (fun b => b.status == "accepted") = true
  ∧ (should_allow_message
        (some (Client.ok [⟨"p1", "contractor-agent-001", "accepted"⟩,
                          ⟨"p1", "contractor-agent-001", "rejected"⟩]))
        (some "p1") "contractor-agent-001" "homeowner-agent-001"
      = (true, "Allowed: Bid accepted")
    ∧ handle_message
        (some (Client.ok [⟨"p1", "contractor-agent-001", "accepted"⟩,
                          ⟨"p1", "contractor-agent-001", "rejected"⟩]))
        (some "p1") "contractor-agent-001" "homeowner-agent-001" "hi" true
      = MsgOutcome.forwarded "hi") :=
  ⟨by decide, by decide, by decide, by decide,
    accepted_bid_allows_untransformed
      [⟨"p1", "contractor-agent-001", "accepted"⟩, ⟨"p1", "contractor-agent-001", "rejected"⟩]
      "p1" "contractor-agent-001" "homeowner-agent-001" "hi"
      "contractor-agent-001" "homeowner-agent-001"
      (by decide) (by decide) (by decide) (Or.inl ⟨rfl, rfl⟩) (by decide)⟩

/-- C2: whenever sender and recipient resolve to the same role under the
code's role test, `_should_allow_message` denies with the role-specific
"not supported" reason; the client (hence the whole bid state) is
universally quantified, so the verdict is independent of any bids, and the
reason depends only on which shared role the pair has. -/
theorem same_role_messaging_denied (client : Client) (pid sender recipient : String)
    (hsame : strContains "contractor-agent" sender
           = strContains "contractor-agent" recipient) :
    should_allow_message (some client) (some pid) sender recipient
      = (false, if strContains "contractor-agent" sender
                then "Blocked: Contractor-to-contractor messaging not supported"
                else "Blocked: Homeowner-to-homeowner messaging not supported") := by
  cases hb : strContains "contractor-agent" sender <;>
    simp [should_allow_message, hb, ← hsame]

/-- Witness for C2: two contractor agents on a project where one even has an
accepted bid; the message is still denied with the contractor-to-contractor
reason. -/
theorem same_role_messaging_denied_witness :
    strContains "contractor-agent" "contractor-agent-001"
      = strContains "contractor-agent" "contractor-agent-002"
  ∧ should_allow_message (some (Client.ok [⟨"p1", "contractor-agent-001", "accepted"⟩]))
        (some "p1") "contractor-agent-001" "contractor-agent-002"
      = (false, "Blocked: Contractor-to-contractor messaging not supported") :=
  ⟨by decide,
    (same_role_messaging_denied (Client.ok [⟨"p1", "contractor-agent-001", "accepted"⟩])
      "p1" "contractor-agent-001" "contractor-agent-002" (by decide)).trans (by decide)⟩

/-- C3: for every message without a project identifier the evaluation denies
with reason "Blocked: Missing project context"; the database client and the
participants are universally quantified (including an absent or failing
client and same-role pairs), so this rule fires first, before the database
check, the role rules and the bid-state rules. -/
theorem missing_project_denied (db : Option Client) (sender recipient : String) :
    should_allow_message db none sender recipient
      = (false, "Blocked: Missing project context") := rfl

/-- C4: the evaluation is fail-closed. It is total by construction (a Lean
function); when the client is absent the verdict is the
"Database connection unavailable" deny for any project and participants;
when every query raises, the verdict is a deny (never allow) for all
inputs, and on a contractor-to-homeowner message that reaches the bid query
it is exactly the "Error checking permissions" deny produced by the
exception handler. -/
theorem evaluator_fail_closed (pid_opt : Option String)
    (pid sender recipient hmw ctr : String)
    (hc : strContains "contractor-agent" ctr = true)
    (hh : strContains "contractor-agent" hmw = false)
    (hne : hmw ≠ "") :
    (should_allow_message none pid_opt sender recipient).1 = false
  ∧ (should_allow_message (some Client.failing) pid_opt sender recipient).1 = false
  ∧ should_allow_message none (some pid) sender recipient
      = (false, "Blocked: Database connection unavailable")
  ∧ should_allow_message (some Client.failing) (some pid) ctr hmw
      = (false, "Blocked: Error checking permissions") := by
  have hcne : ctr ≠ "" := contains_ne_empty hc
  refine ⟨?_, ?_, ?_, ?_⟩
  · cases pid_opt <;> rfl
  · cases pid_opt with
    | none => rfl
    | some p =>
      simp only [should_allow_message, roleResolved, runBidQuery]
      split_ifs <;> simp
  · rfl
  · simp [should_allow_message, roleResolved, runBidQuery, hc, hh, hne, hcne]

/-- Witness for C4: concrete instances of all four fail-closed conjuncts,
with the contractor sender "contractor-agent-001" and homeowner recipient
"homeowner-agent-001" for the raised-query case. -/
theorem evaluator_fail_closed_witness :
    strContains "contractor-agent" "contractor-agent-001" = true
  ∧ strContains "contractor-agent" "homeowner-agent-001" = false
  ∧ "homeowner-agent-001" ≠ ""
  ∧ ((should_allow_message none (some "p1") "a" "b").1 = false
    ∧ (should_allow_message (some Client.failing) (some "p1") "a" "b").1 = false
    ∧ should_allow_message none (some "p1") "a" "b"
        = (false, "Blocked: Database connection unavailable")
    ∧ should_allow_message (some Client.failing) (some "p1")
        "contractor-agent-001" "homeowner-agent-001"
        = (false, "Blocked: Error checking permissions")) :=
  ⟨by decide, by decide, by decide,
    evaluator_fail_closed (some "p1") "p1" "a" "b"
      "homeowner-agent-001" "contractor-agent-001" (by decide) (by decide) (by decide)⟩

/-- C5: the participant identifier "unknown-user-1" matches no role mapping
(it fails the code's contractor test, and no other mapping exists in the
code), yet the evaluation does not fail with an UnresolvedIdentity error:
the substring guess classifies it as a homeowner and the message to a
contractor with a pending bid is ALLOWED — the outcome is decided by the
substring guess and is not a deny, contradicting the claimed fail-closed
identity handling. -/
theorem unmapped_identity_allowed_by_substring_guess :
    strContains "contractor-agent" "unknown-user-1" = false
  ∧ should_allow_message (some (Client.ok [⟨"p1", "contractor-agent-001", "pending"⟩]))
        (some "p1") "unknown-user-1" "contractor-agent-001"
      = (true, "Allowed: Bid pending (redaction may apply)") := by decide

/-- C6: with zero bids, the contractor's first message is allowed with
reason "Allowed: Initial pre-bid contact" and a homeowner-initiated message
is denied — but the delivered payload "call me at 555-0000" is forwarded
verbatim: no redact-contact-info transform exists in the code (redaction is
a TODO placeholder), contradicting the claimed redaction. -/
theorem zero_bids_first_contact_not_redacted :
    should_allow_message (some (Client.ok [])) (some "p3")
        "contractor-agent-003" "homeowner-agent-003"
      = (true, "Allowed: Initial pre-bid contact")
  ∧ handle_message (some (Client.ok [])) (some "p3")
        "contractor-agent-003" "homeowner-agent-003" "call me at 555-0000" true
      = MsgOutcome.forwarded "call me at 555-0000"
  ∧ should_allow_message (some (Client.ok [])) (some "p3")
        "homeowner-agent-003" "contractor-agent-003"
      = (false, "Blocked: No accepted/pending bid or prior contact") := by decide

/-- C7: with only a pending bid the message is allowed with the pending-bid
reason, but the content actually forwarded to the recipient is
"call me at 555-1234" with the phone number intact: `handle_message` sets
`modified_content = message.content` (redaction is a TODO placeholder), so
no contact-information pattern is stripped, contradicting the claimed
delivery-side redaction. -/
theorem pending_bid_phone_not_stripped :
    should_allow_message (some (Client.ok [⟨"P1", "contractor-agent-C1", "pending"⟩]))
        (some "P1") "homeowner-agent-H1" "contractor-agent-C1"
      = (true, "Allowed: Bid pending (redaction may apply)")
  ∧ handle_message (some (Client.ok [⟨"P1", "contractor-agent-C1", "pending"⟩]))
        (some "P1") "homeowner-agent-H1" "contractor-agent-C1" "call me at 555-1234" true
      = MsgOutcome.forwarded "call me at 555-1234" := by decide

/-- C8: the broadcast fan-out produces exactly one outcome per computed
recipient, and the outcome at position i depends only on how delivery
behaves on recipient i's own agent id: for two transport behaviors that
agree on that agent id, the i-th outcome is identical no matter how the
transports differ (fail or succeed) on every other recipient — one
recipient's failure cannot abort or alter the others, and mixed
delivered/failed outcome lists are the recorded result. -/
theorem broadcast_isolated_fanout (table : List Bid) (pid : String)
    (info s1 s2 : String → Bool) (i : Nat)
    (hagree : s1 (recipientAgentId ((broadcastRecipients table pid).getD i ""))
            = s2 (recipientAgentId ((broadcastRecipients table pid).getD i ""))) :
    (handle_broadcast (some (Client.ok table)) pid info s1).length
      = (broadcastRecipients table pid).length
  ∧ (handle_broadcast (some (Client.ok table)) pid info s1)[i]?
      = (handle_broadcast (some (Client.ok table)) pid info s2)[i]? := by
  constructor
  · simp [handle_broadcast]
  · simp only [handle_broadcast, List.getElem?_map]
    cases hg : (broadcastRecipients table pid)[i]? with
    | none => rfl
    | some uid =>
      have huid : (broadcastRecipients table pid).getD i "" = uid := by
        simp [List.getD_eq_getElem?_getD, hg]
      rw [huid] at hagree
      simp [deliverOne, hagree]

/-- Witness for C8: three contractors c1, c2, c3 bid on project "p"; the
transport fails exactly on c2's agent id. The broadcast yields three
outcomes and the first recipient's outcome equals the one under a transport
with no failures at all. -/
theorem broadcast_isolated_fanout_witness :
    (fun a => !(a == recipientAgentId "c2"))
        (recipientAgentId ((broadcastRecipients
          [⟨"p", "c1", "pending"⟩, ⟨"p", "c2", "pending"⟩, ⟨"p", "c3", "accepted"⟩]
          "p").getD 0 ""))
      = (fun _ => true)
        (recipientAgentId ((broadcastRecipients
          [⟨"p", "c1", "pending"⟩, ⟨"p", "c2", "pending"⟩, ⟨"p", "c3", "accepted"⟩]
          "p").getD 0 ""))
  ∧ ((handle_broadcast
        (some (Client.ok [⟨"p", "c1", "pending"⟩, ⟨"p", "c2", "pending"⟩,
                          ⟨"p", "c3", "accepted"⟩]))
        "p" (fun _ => true) (fun a => !(a == recipientAgentId "c2"))).length
      = (broadcastRecipients
          [⟨"p", "c1", "pending"⟩, ⟨"p", "c2", "pending"⟩, ⟨"p", "c3", "accepted"⟩]
          "p").length
    ∧ (handle_broadcast
        (some (Client.ok [⟨"p", "c1", "pending"⟩, ⟨"p", "c2", "pending"⟩,
                          ⟨"p", "c3", "accepted"⟩]))
        "p" (fun _ => true) (fun a => !(a == recipientAgentId "c2")))[0]?
      = (handle_broadcast
        (some (Client.ok [⟨"p", "c1", "pending"⟩, ⟨"p", "c2", "pending"⟩,
                          ⟨"p", "c3", "accepted"⟩]))
        "p" (fun _ => true) (fun _ => true))[0]?) :=
  ⟨by decide,
    broadcast_isolated_fanout
      [⟨"p", "c1", "pending"⟩, ⟨"p", "c2", "pending"⟩, ⟨"p", "c3", "accepted"⟩]
      "p" (fun _ => true) (fun a => !(a == recipientAgentId "c2")) (fun _ => true) 0
      (by decide)⟩

/-- Counterexample to C9: on project "p1" the only bid of contractor "c1"
has status "rejected", yet the computed broadcast recipient set is exactly
["c1"] — the code's recipient query has no status filter, so a
rejected-only contractor IS in the set, contrary to the claim. -/
theorem rejected_only_contractor_in_broadcast_set :
    broadcastRecipients [⟨"p1", "c1", "rejected"⟩] "p1" = ["c1"] := by decide

/-- C9 (amended): the broadcast recipient set is exactly the distinct
contractor account identifiers holding ANY bid record on the project,
regardless of bid status; no prior-contact extension exists. -/
theorem broadcast_recipients_any_bid (table : List Bid) (pid uid : String) :
    uid ∈ broadcastRecipients table pid
      ↔ ∃ b ∈ table, b.project_id = pid ∧ b.contractor_id = uid := by
  simp [broadcastRecipients, List.mem_dedup, List.mem_map, List.mem_filter]
  constructor
  · rintro ⟨b, ⟨hb, hp⟩, hcid⟩
    exact ⟨b, hb, hp, hcid⟩
  · rintro ⟨b, hb, hp, hcid⟩
    exact ⟨b, ⟨hb, hp⟩, hcid⟩

/-- C10: the broadcast recipient list is duplicate-free, so each distinct
contractor account identifier occurs at most once in it and therefore
receives at most one delivery attempt during the fan-out, even when the
contractor has several bid rows on the project. -/
theorem broadcast_recipients_deduplicated (table : List Bid) (pid uid : String) :
    (broadcastRecipients table pid).Nodup
  ∧ List.count uid (broadcastRecipients table pid) ≤ 1 := by
  have hnd : (broadcastRecipients table pid).Nodup := List.nodup_dedup _
  exact ⟨hnd, List.nodup_iff_count_le_one.mp hnd uid⟩
